import Mathlib

/-!
Verification development for the loan eligibility and risk predictor.

The repository ships the React client (`loan-predictor/src/App.tsx` and two
earlier revisions of the same file).  The Flask backend implementing the risk
assessment engine is referenced by the README but its source is not in the
repository snapshot, so the engine (validator, feature deriver, scorer,
classifier, tip generator) is modelled here from the specification, while the
client-side computations (request construction, form field constraints, the
detailed recommendation generator, tip icon selection, history bookkeeping)
are embedded directly from `App.tsx`.

All monetary and score arithmetic is carried out in `ℚ`.  The helper
functions `qmax`, `qmin`, `qabs`, `qpow` are executable renderings of
`max`, `min`, `abs` and natural-number powers so that concrete assessments
reduce inside the kernel.
-/

/-- Executable maximum on `ℚ`. -/
def qmax (a b : ℚ) : ℚ := if a ≤ b then b else a

/-- Executable minimum on `ℚ`. -/
def qmin (a b : ℚ) : ℚ := if a ≤ b then a else b

/-- Executable absolute value on `ℚ`. -/
def qabs (a : ℚ) : ℚ := if a < 0 then -a else a

/-- Executable natural-number power on `ℚ`. -/
def qpow (x : ℚ) : ℕ → ℚ
  | 0 => 1
  | n + 1 => x * qpow x n

theorem qmax_eq_max (a b : ℚ) : qmax a b = max a b := by
  unfold qmax; split_ifs with h
  · exact (max_eq_right h).symm
  · exact (max_eq_left (le_of_not_le h)).symm

theorem qmin_eq_min (a b : ℚ) : qmin a b = min a b := by
  unfold qmin; split_ifs with h
  · exact (min_eq_left h).symm
  · exact (min_eq_right (le_of_not_le h)).symm

theorem qpow_eq_pow (x : ℚ) (n : ℕ) : qpow x n = x ^ n := by
  induction n with
  | zero => rfl
  | succ n ih => rw [qpow, ih, pow_succ]; ring

/-- The wire shape of a `/api/predict` request: six numeric fields
(README, section API Endpoints). -/
structure LoanRequest where
  monthly_income : ℚ
  loan_amount : ℚ
  credit_score : ℚ
  existing_loans : ℚ
  monthly_expenses : ℚ
  employment_years : ℚ
deriving Repr, DecidableEq

/-- Derived affordability quantities (spec section 4.2). -/
structure DerivedFeatures where
  monthly_emi : ℚ
  disposable_income : ℚ
  debt_to_income_pct : ℚ
  income_to_loan : ℚ
deriving Repr, DecidableEq

/-- The engine response record (spec section 3 and README example). -/
structure AssessmentResult where
  eligible : Bool
  confidence : ℚ
  risk_score : ℚ
  risk_category : String
  monthly_emi : ℚ
  disposable_income : ℚ
  debt_to_income : ℚ
  tips : List String
deriving Repr, DecidableEq

/-- Modelled from the spec: nominal annual interest rate policy constant
(spec section 4.2 names 10.5% as the policy value). -/
def ANNUAL_RATE : ℚ := 105 / 1000

/-- Modelled from the spec: fixed loan term in months (spec section 4.2
names 60 months as the policy value). -/
def LOAN_TERM_MONTHS : ℕ := 60

/-- Modelled from the spec: monthly interest rate. -/
def MONTHLY_RATE : ℚ := ANNUAL_RATE / 12

/-- Modelled from the spec: eligibility threshold policy constant
(spec section 4.4 names 50 as the policy value). -/
def ELIGIBILITY_THRESHOLD : ℚ := 50

/-- Modelled from the spec: confidence scaling policy constant
(spec section 4.3 leaves `k` as a policy constant; modelled as 1). -/
def CONFIDENCE_K : ℚ := 1

/-- Modelled from the spec: the input validator of the missing backend
(spec section 4.1).  Fields are checked in the order the spec lists them and
the first offending field name is reported; `none` means the request is
valid. -/
def validate (r : LoanRequest) : Option String :=
  if ¬ (0 < r.monthly_income) then some "monthly_income"
  else if ¬ (0 < r.loan_amount) then some "loan_amount"
  else if ¬ (300 ≤ r.credit_score ∧ r.credit_score ≤ 900) then some "credit_score"
  else if ¬ (0 ≤ r.existing_loans ∧ r.existing_loans.den = 1) then some "existing_loans"
  else if ¬ (0 ≤ r.employment_years) then some "employment_years"
  else if ¬ (0 ≤ r.monthly_expenses) then some "monthly_expenses"
  else none

/-- Modelled from the spec: standard reducing-balance EMI for a principal,
at the fixed policy rate over the fixed term, with the zero-rate guard
(spec section 4.2). -/
def emi (P : ℚ) : ℚ :=
  if MONTHLY_RATE = 0 then P / (LOAN_TERM_MONTHS : ℚ)
  else
    let pw := qpow (1 + MONTHLY_RATE) LOAN_TERM_MONTHS
    P * MONTHLY_RATE * pw / (pw - 1)

/-- Modelled from the spec: the feature deriver of the missing backend
(spec section 4.2). -/
def deriveFeatures (r : LoanRequest) : DerivedFeatures :=
  let e := emi r.loan_amount
  { monthly_emi := e
    disposable_income := r.monthly_income - r.monthly_expenses - e
    debt_to_income_pct := (r.monthly_expenses + e) / r.monthly_income * 100
    income_to_loan := r.loan_amount / (r.monthly_income * 12) }

/-- Modelled from the spec: credit sub-score (spec section 4.3). -/
def creditSubScore (cs : ℚ) : ℚ := qmax 0 (100 - (cs - 300) / 6)

/-- Modelled from the spec: debt sub-score (spec section 4.3). -/
def debtSubScore (dtiPct : ℚ) : ℚ := qmin 100 dtiPct

/-- Modelled from the spec: employment sub-score (spec section 4.3). -/
def employmentSubScore (ey : ℚ) : ℚ := qmax 0 (100 - ey * 10)

/-- Modelled from the spec: existing-loans sub-score (spec section 4.3). -/
def loansSubScore (el : ℚ) : ℚ := qmin 100 (el * 20)

/-- Modelled from the spec: affordability sub-score (spec section 4.3). -/
def affordabilitySubScore (disp : ℚ) : ℚ :=
  if disp < 0 then 100 else qmax 0 (50 - disp / 1000)

/-- Modelled from the spec: weighted risk score clamped to [0,100]
(spec section 4.3, weights 0.30/0.30/0.15/0.10/0.15). -/
def riskScore (r : LoanRequest) (f : DerivedFeatures) : ℚ :=
  qmax 0 (qmin 100
    (3/10 * creditSubScore r.credit_score
      + 3/10 * debtSubScore f.debt_to_income_pct
      + 15/100 * employmentSubScore r.employment_years
      + 1/10 * loansSubScore r.existing_loans
      + 15/100 * affordabilitySubScore f.disposable_income))

/-- Modelled from the spec: confidence as distance from the decision
boundary, clamped to [50,99] (spec section 4.3). -/
def confidenceScore (risk : ℚ) : ℚ :=
  qmax 50 (qmin 99 (100 - qabs (risk - ELIGIBILITY_THRESHOLD) * CONFIDENCE_K))

/-- Modelled from the spec: risk category ladder with strict thresholds
(spec section 4.4). -/
def riskCategory (risk : ℚ) : String :=
  if risk < 33 then "Low Risk"
  else if risk < 66 then "Medium Risk"
  else "High Risk"

/-- Modelled from the spec: eligibility decision — score below threshold AND
the non-negative disposable income hard gate (spec section 4.4). -/
def isEligible (risk disp : ℚ) : Bool :=
  decide (risk < ELIGIBILITY_THRESHOLD) && decide (0 ≤ disp)

/-- Modelled from the spec: the tip generator of the missing backend
(spec section 4.5) — one rule per weak factor, evaluated in a fixed order,
with a single affirmative tip when no rule fires. -/
def engineTips (r : LoanRequest) (f : DerivedFeatures) : List String :=
  let fired :=
    (if r.credit_score < 650 then ["Improve your credit score with timely payments"] else [])
    ++ (if f.income_to_loan > 1/2 then ["Consider requesting a smaller loan amount"] else [])
    ++ (if f.debt_to_income_pct > 40 then ["Reduce your monthly debt obligations"] else [])
    ++ (if r.employment_years < 2 then ["A longer employment tenure will strengthen your application"] else [])
    ++ (if f.disposable_income < 0 then ["Your expenses and EMI currently exceed your income"] else [])
  if fired.isEmpty then ["Strong financial profile - you are well positioned for this loan"] else fired

/-- Modelled from the spec: the assessment orchestrator on a validated
input (spec sections 4.3-4.5 and 3). -/
def assess (r : LoanRequest) : AssessmentResult :=
  let f := deriveFeatures r
  let risk := riskScore r f
  { eligible := isEligible risk f.disposable_income
    confidence := confidenceScore risk
    risk_score := risk
    risk_category := riskCategory risk
    monthly_emi := f.monthly_emi
    disposable_income := f.disposable_income
    debt_to_income := f.debt_to_income_pct
    tips := engineTips r f }

/-- Modelled from the spec: the complete engine call — validation first,
then assessment; a validation failure yields the offending field name and
no result (spec sections 4.1 and 7). -/
def predict (r : LoanRequest) : Except String AssessmentResult :=
  match validate r with
  | some field => .error field
  | none => .ok (assess r)

/-! ## Client-side embeddings, from `loan-predictor/src/App.tsx` -/

/-- The request body sent by `handleSubmit` (`App.tsx` lines 167-174):
annual income is converted to monthly by dividing by 12, expenses are the
monthly income times the entered debt-to-income percentage over 100, and
`existing_loans` is the constant 0 because the form has no such field. -/
def predictRequestBody (income loan_amount credit_score debt_to_income employment_years : ℚ) :
    LoanRequest :=
  { monthly_income := income / 12
    loan_amount := loan_amount
    credit_score := credit_score
    existing_loans := 0
    monthly_expenses := (income / 12) * (debt_to_income / 100)
    employment_years := employment_years }

/-- The validity predicate of the credit-score form field
(`App.tsx` lines 561-572): a number input with attributes
`min="300"` and `max="850"`, so form validation accepts exactly the
values in [300, 850]. -/
def creditScoreFieldAccepts (cs : ℚ) : Bool :=
  decide (300 ≤ cs ∧ cs ≤ 850)

/-- A detailed recommendation record (`App.tsx` interface
`DetailedRecommendation`). -/
structure DetailedRecommendation where
  category : String
  priority : String
  recommendation : String
  impact : String
  action_steps : List String
deriving Repr, DecidableEq

/-- Recommendation pushed when `creditScore < 650` (`App.tsx` 207-219). -/
def creditLowRec : DetailedRecommendation :=
  { category := "Credit Score Improvement"
    priority := "high"
    recommendation := "Your credit score is below optimal. Focus on making all payments on time, reduce credit utilization below 30%, and avoid new credit applications for 6 months."
    impact := "Can improve confidence by 15-20%"
    action_steps :=
      ["Pay all bills on time for the next 6 months",
       "Reduce credit card balances to under 30% of limits",
       "Avoid applying for new credit cards or loans",
       "Check credit report for errors and dispute inaccuracies"] }

/-- Recommendation pushed when `650 ≤ creditScore < 750` (`App.tsx` 220-233). -/
def creditMidRec : DetailedRecommendation :=
  { category := "Credit Score Enhancement"
    priority := "medium"
    recommendation := "Your credit score is good but can be excellent. Continue timely payments and consider becoming an authorized user on accounts with long positive histories."
    impact := "Can improve confidence by 5-10%"
    action_steps :=
      ["Maintain perfect payment history for 12 months",
       "Keep credit utilization under 10%",
       "Become authorized user on well-established accounts",
       "Consider a secured credit card to build history"] }

/-- Recommendation pushed when `loanAmount / income > 0.5` (`App.tsx` 237-249). -/
def loanHighRec : DetailedRecommendation :=
  { category := "Loan Amount Optimization"
    priority := "high"
    recommendation := "Your loan amount is high relative to income. Consider reducing the loan amount by 20-30% or adding a co-applicant to improve approval chances."
    impact := "Can improve confidence by 20-25%"
    action_steps :=
      ["Reduce loan amount by 20-30%",
       "Add a co-applicant with strong credit history",
       "Increase down payment to reduce loan requirement",
       "Consider extending loan term to reduce monthly payments"] }

/-- Recommendation pushed when `0.3 < loanAmount / income ≤ 0.5`
(`App.tsx` 250-262). -/
def loanMidRec : DetailedRecommendation :=
  { category := "Loan Amount Review"
    priority := "medium"
    recommendation := "Your loan amount is reasonable but could be optimized. A 10-15% reduction might significantly improve your approval odds."
    impact := "Can improve confidence by 8-12%"
    action_steps :=
      ["Reduce loan amount by 10-15%",
       "Explore government assistance programs",
       "Consider alternative financing options",
       "Negotiate better terms with lender"] }

/-- Recommendation pushed when `dti > 40` (`App.tsx` 266-278). -/
def debtHighRec : DetailedRecommendation :=
  { category := "Debt Management"
    priority := "high"
    recommendation := "Your debt-to-income ratio is high. Focus on paying down existing debts before applying for new loans. Consider debt consolidation options."
    impact := "Can improve confidence by 15-25%"
    action_steps :=
      ["Create debt repayment plan prioritizing high-interest debts",
       "Consider debt consolidation or balance transfer",
       "Reduce discretionary spending to allocate more to debt payments",
       "Explore debt management programs"] }

/-- Recommendation pushed when `30 < dti ≤ 40` (`App.tsx` 279-292). -/
def debtMidRec : DetailedRecommendation :=
  { category := "Debt Optimization"
    priority := "medium"
    recommendation := "Your debt-to-income ratio is manageable but could be improved. Pay down credit cards to below 20% utilization."
    impact := "Can improve confidence by 5-10%"
    action_steps :=
      ["Pay down credit card balances to under 20% utilization",
       "Avoid taking on new debt before loan application",
       "Consider paying bi-weekly instead of monthly",
       "Explore balance transfer options for lower interest rates"] }

/-- Recommendation pushed when `employmentYears < 2` (`App.tsx` 295-308). -/
def empRec : DetailedRecommendation :=
  { category := "Employment History Strengthening"
    priority := "medium"
    recommendation := "Your employment history is limited. Provide additional documentation of stable income such as bank statements or freelance contracts."
    impact := "Can improve confidence by 8-12%"
    action_steps :=
      ["Provide 12 months of bank statements showing consistent income",
       "Obtain employment verification letter from current employer",
       "Include freelance or contract work documentation",
       "Add a co-applicant with established employment history"] }

/-- `generateDetailedRecommendations` from `App.tsx` lines 196-311 on the
parsed numeric form values (the local variable `incomeToLoanRatio =
loanAmount / income` is inlined; the `!result` UI guard is outside the
numeric computation).  Blocks are concatenated in source push order:
credit score, income-to-loan, debt-to-income, employment. -/
def generateDetailedRecommendations (creditScore income loanAmount dti employmentYears : ℚ) :
    List DetailedRecommendation :=
  (if creditScore < 650 then [creditLowRec]
   else if creditScore < 750 then [creditMidRec] else [])
  ++ (if loanAmount / income > 0.5 then [loanHighRec]
      else if loanAmount / income > 0.3 then [loanMidRec] else [])
  ++ (if dti > 40 then [debtHighRec]
      else if dti > 30 then [debtMidRec] else [])
  ++ (if employmentYears < 2 then [empRec] else [])

/-- Substring test on character lists: `hasPrefixChars p s` is true when
`p` is an initial segment of `s`. -/
def hasPrefixChars : List Char → List Char → Bool
  | [], _ => true
  | _ :: _, [] => false
  | a :: as, b :: bs => a == b && hasPrefixChars as bs

/-- `occursInChars p s` is true when `p` occurs contiguously in `s`. -/
def occursInChars (pat : List Char) : List Char → Bool
  | [] => pat.isEmpty
  | b :: bs => hasPrefixChars pat (b :: bs) || occursInChars pat bs

/-- `strContains s pat` renders the JavaScript `s.includes(pat)` used for
tip icon selection. -/
def strContains (s pat : String) : Bool :=
  occursInChars pat.data s.data

/-- The fixed emoji marker list the client looks for inside tip texts
(`App.tsx` lines 718-734). -/
def tipMarkers : List String :=
  ["⚠️", "📈", "📊", "✅", "💰", "💡", "🏦", "✨", "📉", "🎉", "🔄", "📚"]

/-- Tip icon selection from `App.tsx` lines 718-734: the first emoji marker
contained in the tip text, with the default icon 💡. -/
def tipIcon (tip : String) : String :=
  if strContains tip "⚠️" then "⚠️"
  else if strContains tip "📈" then "📈"
  else if strContains tip "📊" then "📊"
  else if strContains tip "✅" then "✅"
  else if strContains tip "💰" then "💰"
  else if strContains tip "💡" then "💡"
  else if strContains tip "🏦" then "🏦"
  else if strContains tip "✨" then "✨"
  else if strContains tip "📉" then "📉"
  else if strContains tip "🎉" then "🎉"
  else if strContains tip "🔄" then "🔄"
  else if strContains tip "📚" then "📚"
  else "💡"

/-- History update from `handleSubmit` (`App.tsx` line 185): the new entry
is prepended to at most the first 9 previous entries, and the same list is
persisted to `localStorage`. -/
def pushHistory {α : Type} (entry : α) (history : List α) : List α :=
  entry :: history.take 9

/-! ## Concrete inputs used by witnesses and counterexamples -/

/-- Scenario A of the spec: monthly income 50000, loan 500000, credit 750,
no existing loans, expenses 20000, five years of employment. -/
def scenarioA : LoanRequest :=
  { monthly_income := 50000
    loan_amount := 500000
    credit_score := 750
    existing_loans := 0
    monthly_expenses := 20000
    employment_years := 5 }

/-- An input whose expenses exceed income, so disposable income is
negative. -/
def negCashFlowInput : LoanRequest :=
  { monthly_income := 1000
    loan_amount := 100000
    credit_score := 700
    existing_loans := 0
    monthly_expenses := 2000
    employment_years := 5 }

/-- A request with zero monthly income (Scenario C of the spec). -/
def zeroIncomeRequest : LoanRequest :=
  { monthly_income := 0
    loan_amount := 500000
    credit_score := 750
    existing_loans := 0
    monthly_expenses := 20000
    employment_years := 5 }

/-! ## Supporting lemmas -/

theorem one_lt_qpow60 : 1 < qpow (1 + MONTHLY_RATE) LOAN_TERM_MONTHS := by
  rw [qpow_eq_pow]
  apply one_lt_pow₀
  · norm_num [MONTHLY_RATE, ANNUAL_RATE]
  · norm_num [LOAN_TERM_MONTHS]

theorem emi_nonneg (P : ℚ) (hP : 0 ≤ P) : 0 ≤ emi P := by
  unfold emi
  split_ifs with hr
  · positivity
  · have hpw := one_lt_qpow60
    have h1 : (0:ℚ) ≤ P * MONTHLY_RATE := by
      apply mul_nonneg hP
      norm_num [MONTHLY_RATE, ANNUAL_RATE]
    apply div_nonneg
    · exact mul_nonneg h1 (by linarith)
    · linarith

theorem two_band_lt_empty (x t1 t2 : ℚ) (a b : DetailedRecommendation) (h : t1 ≤ t2) :
    ((if x < t1 then [a] else if x < t2 then [b] else []) = []) ↔ ¬ x < t2 := by
  split_ifs with h1 h2
  · simp only [List.cons_ne_nil, false_iff, not_not]; linarith
  · simp [h2]
  · simp [h2]

theorem two_band_gt_empty (x t1 t2 : ℚ) (a b : DetailedRecommendation) (h : t2 ≤ t1) :
    ((if x > t1 then [a] else if x > t2 then [b] else []) = []) ↔ ¬ x > t2 := by
  split_ifs with h1 h2
  · simp only [List.cons_ne_nil, false_iff, not_not]; linarith
  · simp [h2]
  · simp [h2]

theorem one_band_lt_empty (x t : ℚ) (a : DetailedRecommendation) :
    ((if x < t then [a] else []) = []) ↔ ¬ x < t := by
  split_ifs with h1
  · simp [h1]
  · simp [h1]

/-! ## Claims -/

/-- C1: for every assessment the engine produces, a negative disposable
income forces `eligible = false` — the hard cash-flow gate overrides any
risk score. -/
theorem gate_negative_disposable_rejects (r : LoanRequest)
    (h : (assess r).disposable_income < 0) : (assess r).eligible = false := by
  have h' : ¬ (0 ≤ (deriveFeatures r).disposable_income) := not_le.mpr h
  simp [assess, isEligible, h']

/-- Witness for C1 at a concrete input with expenses above income. -/
theorem gate_negative_disposable_rejects_witness :
    (assess negCashFlowInput).disposable_income < 0 ∧
      (assess negCashFlowInput).eligible = false := by
  have hd : (assess negCashFlowInput).disposable_income < 0 := by
    have he : 0 ≤ emi 100000 := emi_nonneg 100000 (by norm_num)
    show (1000 : ℚ) - 2000 - emi 100000 < 0
    linarith
  exact ⟨hd, gate_negative_disposable_rejects negCashFlowInput hd⟩

/-- C2: an eligible assessment is never classified as High Risk, because
eligibility requires a risk score below the threshold 50 while High Risk
starts at 66. -/
theorem eligible_not_high_risk (r : LoanRequest)
    (h : (assess r).eligible = true) : (assess r).risk_category ≠ "High Risk" := by
  have hrisk : riskScore r (deriveFeatures r) < ELIGIBILITY_THRESHOLD := by
    have h2 := h
    simp [assess, isEligible] at h2
    exact h2.1
  show riskCategory (riskScore r (deriveFeatures r)) ≠ "High Risk"
  rw [ELIGIBILITY_THRESHOLD] at hrisk
  unfold riskCategory
  split_ifs with h1 h2
  · decide
  · decide
  · exfalso; linarith

/-- Witness for C2 at Scenario A, which the engine approves. -/
theorem eligible_not_high_risk_witness :
    (assess scenarioA).eligible = true ∧ (assess scenarioA).risk_category ≠ "High Risk" := by
  have he : (assess scenarioA).eligible = true := by
    norm_num [scenarioA, assess, deriveFeatures, emi, riskScore, creditSubScore,
      debtSubScore, employmentSubScore, loansSubScore, affordabilitySubScore,
      isEligible, qmax, qmin, qpow_eq_pow, MONTHLY_RATE, ANNUAL_RATE,
      LOAN_TERM_MONTHS, ELIGIBILITY_THRESHOLD]
  exact ⟨he, eligible_not_high_risk scenarioA he⟩

/-- C3 counterexample: a validated strong profile (credit 800, annual
income 1200000, loan 100000, debt-to-income 10, five years employed) fires
no weakness rule, and the recommendation generator returns the empty list —
there is no affirmative fallback tip, refuting the claimed non-emptiness. -/
theorem recs_empty_on_strong_profile :
    generateDetailedRecommendations 800 1200000 100000 10 5 = [] := by
  norm_num [generateDetailedRecommendations]

/-- C3 amended: the recommendation generator returns a non-empty list
exactly when some weakness rule fires — credit score below 750, loan above
0.3 of annual income, debt-to-income above 30, or employment under two
years; with no rule firing the output is empty. -/
theorem recs_nonempty_iff_rule_fires (cs inc loan dti ey : ℚ) :
    generateDetailedRecommendations cs inc loan dti ey ≠ [] ↔
      cs < 750 ∨ loan / inc > 0.3 ∨ dti > 30 ∨ ey < 2 := by
  unfold generateDetailedRecommendations
  rw [ne_eq]
  simp only [List.append_eq_nil]
  rw [two_band_lt_empty cs 650 750 creditLowRec creditMidRec (by norm_num),
    two_band_gt_empty (loan / inc) 0.5 0.3 loanHighRec loanMidRec (by norm_num),
    two_band_gt_empty dti 40 30 debtHighRec debtMidRec (by norm_num),
    one_band_lt_empty ey 2 empRec]
  tauto

/-- C4: the assessment pipeline and the client recommendation generator
are pure functions of their input, so two runs on identical input return
identical results, tips ordering included. -/
theorem assessment_deterministic (r : LoanRequest) (cs inc loan dti ey : ℚ) :
    predict r = predict r ∧
      generateDetailedRecommendations cs inc loan dti ey =
        generateDetailedRecommendations cs inc loan dti ey :=
  ⟨rfl, rfl⟩

/-- C5 counterexample: the credit-score form field carries `max="850"`, so
a credit score of 900 is rejected by the client and cannot be submitted,
refuting the claim that 900 is a valid submission input. -/
theorem credit_field_rejects_900 : creditScoreFieldAccepts 900 = false := by
  simp only [creditScoreFieldAccepts, decide_eq_false_iff_not, not_and, not_le]
  intro _
  norm_num

/-- C5 amended: the client credit-score field accepts exactly the values
in [300, 850]; the full CIBIL-like range up to 900 is not reachable from a
form submission. -/
theorem credit_field_accepts_iff (cs : ℚ) :
    creditScoreFieldAccepts cs = true ↔ 300 ≤ cs ∧ cs ≤ 850 := by
  simp [creditScoreFieldAccepts]

/-- C6: a request with non-positive monthly income fails validation with
the field name `monthly_income`; `predict` returns the error and no
assessment result. -/
theorem zero_income_validation_error (r : LoanRequest)
    (h : r.monthly_income ≤ 0) : predict r = Except.error "monthly_income" := by
  have h' : ¬ (0 < r.monthly_income) := not_lt.mpr h
  simp [predict, validate, h']

/-- Witness for C6 at the zero-income request. -/
theorem zero_income_validation_error_witness :
    zeroIncomeRequest.monthly_income ≤ 0 ∧
      predict zeroIncomeRequest = Except.error "monthly_income" := by
  have h : zeroIncomeRequest.monthly_income ≤ 0 := le_refl 0
  exact ⟨h, zero_income_validation_error zeroIncomeRequest h⟩

/-- C7: the request body converts annual income to monthly by dividing by
12 and sends expenses equal to monthly income times the entered percentage
over 100; an annual income of 600000 yields monthly income 50000. -/
theorem request_body_monthly_conversion (income loan cs dti ey : ℚ) :
    (predictRequestBody income loan cs dti ey).monthly_income = income / 12 ∧
      (predictRequestBody income loan cs dti ey).monthly_expenses =
        (income / 12) * (dti / 100) ∧
      (predictRequestBody 600000 loan cs dti ey).monthly_income = 50000 :=
  ⟨rfl, rfl, by norm_num [predictRequestBody]⟩

/-- C8 counterexample: two tips that differ only in an embedded emoji
marker receive different display icons, so the icon is re-derived by
substring-matching the generated sentence; tips carry no structured
category tag. -/
theorem tip_icon_from_text_substring :
    tipIcon "⚠️ Reduce your monthly debt obligations" = "⚠️" ∧
      tipIcon "Reduce your monthly debt obligations" = "💡" := by
  constructor <;> decide

set_option maxHeartbeats 2000000 in
/-- C8 amended: the display icon is computed from the tip text alone by
substring-matching a fixed emoji marker list, defaulting to 💡, so the
selected icon is always one of the twelve markers. -/
theorem tip_icon_mem_marker_set (t : String) : tipIcon t ∈ tipMarkers := by
  unfold tipIcon
  split_ifs <;> decide

/-- C9: every request built by the client has `existing_loans = 0`
independent of the form values, so the existing-loans risk sub-score
evaluates to 0 for every client-originated request. -/
theorem request_existing_loans_zero (income loan cs dti ey : ℚ) :
    (predictRequestBody income loan cs dti ey).existing_loans = 0 ∧
      loansSubScore (predictRequestBody income loan cs dti ey).existing_loans = 0 :=
  ⟨rfl, by norm_num [predictRequestBody, loansSubScore, qmin]⟩

/-- C10: a submission prepends the new entry to at most the first nine
stored entries, so a history of at most ten entries still has at most ten
after the update (the persisted copy is the same list). -/
theorem history_bounded_by_ten {α : Type} (entry : α) (history : List α)
    (h : history.length ≤ 10) : (pushHistory entry history).length ≤ 10 := by
  simp only [pushHistory, List.length_cons, List.length_take]
  omega

/-- Witness for C10 on a full ten-entry history. -/
theorem history_bounded_by_ten_witness :
    ([1,2,3,4,5,6,7,8,9,10] : List ℕ).length ≤ 10 ∧
      (pushHistory 0 ([1,2,3,4,5,6,7,8,9,10] : List ℕ)).length ≤ 10 := by
  have h : ([1,2,3,4,5,6,7,8,9,10] : List ℕ).length ≤ 10 := by decide
  exact ⟨h, history_bounded_by_ten 0 [1,2,3,4,5,6,7,8,9,10] h⟩
